import Mathlib

/-!
# Verification of the mcli Trust & Scoring Engine

A shallow embedding of the core functions of the `mcli` repository:
the score calculators (`computeAgentScore`, `computeReviewScore`),
the review aggregator (`aggregateReviews`), the schema validator
(`validateTool`) and the verification engine (`verifyTool`), together
with proofs of the behavioural properties claimed for them.

Modelling conventions:
* JavaScript numbers are modelled as rationals (`ℚ`); every value the
  engine manipulates is a small integer or an exact decimal fraction,
  so no floating-point rounding is observable at the scales involved.
  Score fields that the schema constrains to small non-negative
  integers are modelled as `ℕ`.
* JavaScript strings are modelled as `String`, with the handful of
  string operations the source uses (`includes`, one-shot `replace`,
  `toLowerCase`, `split`, regex tests) implemented explicitly over
  `List Char` so that they compute by kernel reduction.
* The injected `fetch` function of `verifyTool` is modelled as an
  environment mapping a URL to either a failure (a rejected promise /
  thrown error) or a response carrying `ok`, `status` and a JSON body;
  timestamps (`pushed_at`, the one-year-ago cutoff) are modelled as
  integers supplied by the environment, and ISO date rendering is an
  abstract environment function, since no verified property depends
  on calendar arithmetic.
* `verifyTool` is embedded as a pure function returning both its
  `VerificationResult` and the list of URLs passed to the injected
  fetch function, so that "makes no network call" is expressible.
-/

namespace Mcli

/-- JavaScript `Math.round`: round half towards positive infinity,
i.e. `⌊x + 1/2⌋` (stated via the executable `Rat.floor`). -/
def jsRound (q : ℚ) : ℤ := (q + 1/2).floor

/-! ## Score calculators (`src/lib.ts`, review module) -/

/-- The five-dimension agent-friendliness vector (`AgentScores` in
`types.ts`); each dimension is an integer 1–5. -/
structure AgentScores where
  jsonOutput : ℕ
  nonInteractive : ℕ
  tokenEfficiency : ℕ
  safetyFeatures : ℕ
  pipelineFriendly : ℕ
deriving DecidableEq, Repr

/-- The weighted sum used by `computeAgentScore`:
`json(3) + nonInteractive(3) + tokenEfficiency(2) + safety(1) + pipeline(1)`. -/
def weightedAgent (s : AgentScores) : ℕ :=
  s.jsonOutput * 3 + s.nonInteractive * 3 + s.tokenEfficiency * 2 +
  s.safetyFeatures * 1 + s.pipelineFriendly * 1

/-- `computeAgentScore` from `src/lib.ts`: weighted sum scaled from the
maximum of 50 to a 1–10 range, then rounded. -/
def computeAgentScore (s : AgentScores) : ℤ :=
  jsRound ((weightedAgent s : ℚ) / 50 * 10)

/-- Names of the five agent-friendliness dimensions. -/
inductive AgentDim where
  | jsonOutput | nonInteractive | tokenEfficiency | safetyFeatures | pipelineFriendly
deriving DecidableEq, Repr

/-- Replace a single dimension of an agent-score vector. -/
def AgentScores.setDim (s : AgentScores) : AgentDim → ℕ → AgentScores
  | .jsonOutput, v => { s with jsonOutput := v }
  | .nonInteractive, v => { s with nonInteractive := v }
  | .tokenEfficiency, v => { s with tokenEfficiency := v }
  | .safetyFeatures, v => { s with safetyFeatures := v }
  | .pipelineFriendly, v => { s with pipelineFriendly := v }

/-- All five agent dimensions lie in the schema range 1–5. -/
def AgentScores.valid (s : AgentScores) : Prop :=
  (1 ≤ s.jsonOutput ∧ s.jsonOutput ≤ 5) ∧
  (1 ≤ s.nonInteractive ∧ s.nonInteractive ≤ 5) ∧
  (1 ≤ s.tokenEfficiency ∧ s.tokenEfficiency ≤ 5) ∧
  (1 ≤ s.safetyFeatures ∧ s.safetyFeatures ≤ 5) ∧
  (1 ≤ s.pipelineFriendly ∧ s.pipelineFriendly ≤ 5)

instance (s : AgentScores) : Decidable s.valid := by
  unfold AgentScores.valid; infer_instance

/-- The five-dimension review vector (`Review['scores']` in
`types.ts`); each dimension is an integer 1–5. -/
structure ReviewScores where
  jsonParseable : ℕ
  errorClarity : ℕ
  authSimplicity : ℕ
  idempotency : ℕ
  docsSufficient : ℕ
deriving DecidableEq, Repr

/-- The unweighted sum used by `computeReviewScore`. -/
def sumReview (s : ReviewScores) : ℕ :=
  s.jsonParseable + s.errorClarity + s.authSimplicity + s.idempotency +
  s.docsSufficient

/-- `computeReviewScore` from the review module: plain sum scaled from
the maximum of 25 to a 1–10 range, then rounded. -/
def computeReviewScore (s : ReviewScores) : ℤ :=
  jsRound ((sumReview s : ℚ) / 25 * 10)

/-- Names of the five review dimensions. -/
inductive ReviewDim where
  | jsonParseable | errorClarity | authSimplicity | idempotency | docsSufficient
deriving DecidableEq, Repr

/-- Project one dimension out of a review-score vector. -/
def ReviewScores.dimVal (s : ReviewScores) : ReviewDim → ℕ
  | .jsonParseable => s.jsonParseable
  | .errorClarity => s.errorClarity
  | .authSimplicity => s.authSimplicity
  | .idempotency => s.idempotency
  | .docsSufficient => s.docsSufficient

/-- Replace a single dimension of a review-score vector. -/
def ReviewScores.setDim (s : ReviewScores) : ReviewDim → ℕ → ReviewScores
  | .jsonParseable, v => { s with jsonParseable := v }
  | .errorClarity, v => { s with errorClarity := v }
  | .authSimplicity, v => { s with authSimplicity := v }
  | .idempotency, v => { s with idempotency := v }
  | .docsSufficient, v => { s with docsSufficient := v }

/-- All five review dimensions lie in the schema range 1–5. -/
def ReviewScores.valid (s : ReviewScores) : Prop :=
  (1 ≤ s.jsonParseable ∧ s.jsonParseable ≤ 5) ∧
  (1 ≤ s.errorClarity ∧ s.errorClarity ≤ 5) ∧
  (1 ≤ s.authSimplicity ∧ s.authSimplicity ≤ 5) ∧
  (1 ≤ s.idempotency ∧ s.idempotency ≤ 5) ∧
  (1 ≤ s.docsSufficient ∧ s.docsSufficient ≤ 5)

instance (s : ReviewScores) : Decidable s.valid := by
  unfold ReviewScores.valid; infer_instance

/-! ## Review aggregator (review module) -/

/-- A review record (`Review` in `types.ts`); the fields that
`aggregateReviews` does not read (`notes`, `proofHash`, `timestamp`)
are elided. -/
structure Review where
  tool : String
  agentId : String
  scores : ReviewScores
deriving DecidableEq, Repr

/-- The dimension list in the order the aggregator iterates over it. -/
def allReviewDims : List ReviewDim :=
  [.jsonParseable, .errorClarity, .authSimplicity, .idempotency, .docsSufficient]

/-- Per-dimension aggregate statistics (`{avg, pct}`). -/
structure DimStats where
  avg : ℚ
  pct : ℤ
deriving DecidableEq, Repr

/-- The aggregate over a set of reviews (`count`, `avgScore`,
per-dimension statistics). -/
structure AggregateResult where
  count : ℕ
  avgScore : ℚ
  dimensions : ReviewDim → DimStats

/-- The values of one dimension across a list of reviews
(`reviews.map(r => r.scores[dim])`). -/
def dimValues (reviews : List Review) (d : ReviewDim) : List ℕ :=
  reviews.map (fun r => r.scores.dimVal d)

/-- The arithmetic mean of one dimension across a list of reviews. -/
def dimMean (reviews : List Review) (d : ReviewDim) : ℚ :=
  ((dimValues reviews d).sum : ℚ) / (dimValues reviews d).length

/-- How many reviews rate a dimension favourably (value ≥ 4). -/
def dimGoodCount (reviews : List Review) (d : ReviewDim) : ℕ :=
  ((dimValues reviews d).filter (fun v => 4 ≤ v)).length

/-- The running `totalScore` of `aggregateReviews`: the sum of the five
raw (un-rounded) dimension means. -/
def totalDimMeans (reviews : List Review) : ℚ :=
  (allReviewDims.map (dimMean reviews)).sum

/-- `aggregateReviews` from the review module: `null` on an empty list,
otherwise per-dimension means rounded to one decimal, favourable
percentages, and the overall score
`Math.round((totalScore / 5 / 5) * 10 * 10) / 10`. -/
def aggregateReviews (reviews : List Review) : Option AggregateResult :=
  if reviews.length = 0 then none
  else some
    { count := reviews.length
      avgScore := (jsRound (totalDimMeans reviews / 5 / 5 * 10 * 10) : ℚ) / 10
      dimensions := fun d =>
        { avg := (jsRound (dimMean reviews d * 10) : ℚ) / 10
          pct := jsRound ((dimGoodCount reviews d : ℚ) /
                   (dimValues reviews d).length * 100) } }

/-- The overall aggregate score as the specification words it: take the
mean of the five dimension means, divide by 5, multiply by 10, and
round (to the one-decimal precision the aggregate carries). -/
def specAggScore (reviews : List Review) : ℚ :=
  let meanOfMeans := totalDimMeans reviews / 5
  (jsRound (meanOfMeans / 5 * 10 * 10) : ℚ) / 10

/-- The score a naive reimplementation would produce instead: the
arithmetic mean of the individual reviews' own overall scores. -/
def naiveAvgScore (reviews : List Review) : ℚ :=
  (((reviews.map (fun r => computeReviewScore r.scores)).sum : ℤ) : ℚ) /
    reviews.length

/-! ## Schema validator (`validateTool` in `src/lib.ts`)

The validator receives an `unknown` JavaScript value, modelled by the
JSON-like type `Js`. Property access on anything that is not an object
with the property yields `undefined`. -/

/-- A JavaScript runtime value as far as `validateTool` can observe
one. Object fields are an association list with distinct keys. -/
inductive Js where
  | undefined
  | jsNull
  | bool (b : Bool)
  | num (q : ℚ)
  | str (s : String)
  | arr (elems : List Js)
  | obj (fields : List (String × Js))

/-- Property access `v[key]`: `undefined` unless `v` is an object with
that key. -/
def Js.get (v : Js) (key : String) : Js :=
  match v with
  | .obj fields =>
    match fields.find? (fun f => f.1 == key) with
    | some f => f.2
    | none => .undefined
  | _ => .undefined

/-- The guard `v && typeof v === 'object'`: a truthy value of type
`object`, i.e. a (non-null) object or array. -/
def Js.isObjectLike : Js → Bool
  | .obj _ => true
  | .arr _ => true
  | _ => false

/-- The test `typeof v !== 'string' || !v`: not a string, or the empty
(falsy) string. -/
def Js.missingString : Js → Bool
  | .str s => s == ""
  | _ => true

/-- Membership in the regex character class `[a-z0-9-]`. -/
def slugCharOk (c : Char) : Bool :=
  ('a' ≤ c && c ≤ 'z') || ('0' ≤ c && c ≤ '9') || c == '-'

/-- The regex test `/^[a-z0-9-]+$/.test(s)`. -/
def slugRegexTest (s : String) : Bool :=
  !s.data.isEmpty && s.data.all slugCharOk

/-- Is the value a boolean (`typeof v === 'boolean'`)? -/
def Js.isBool : Js → Bool
  | .bool _ => true
  | _ => false

/-- Is the value an array (`Array.isArray(v)`)? -/
def Js.isArr : Js → Bool
  | .arr _ => true
  | _ => false

/-- A `{valid, errors[]}` validation result. -/
structure ValidationResult where
  valid : Bool
  errors : List String
deriving DecidableEq, Repr

/-- `validateTool` from `src/lib.ts`: accumulates one error string per
violated rule, in source order, and is valid iff no rule fired. -/
def validateTool (tool : Js) : ValidationResult :=
  if !tool.isObjectLike then ⟨false, ["Tool must be an object"]⟩
  else
    let requiredErrs :=
      (["slug", "name", "description"].filter
        (fun f => (tool.get f).missingString)).map
        (fun f => "Missing or invalid field: " ++ f)
    let slugErrs :=
      match tool.get "slug" with
      | .str s =>
        if !slugRegexTest s then
          ["Slug must be lowercase alphanumeric with hyphens only"]
        else []
      | _ => []
    let scoreErrs :=
      match tool.get "agentScore" with
      | .num q =>
        if q < 1 ∨ 10 < q then ["agentScore must be a number between 1 and 10"]
        else []
      | _ => ["agentScore must be a number between 1 and 10"]
    let tierErrs :=
      match tool.get "tier" with
      | .str s =>
        if s = "verified" ∨ s = "community" ∨ s = "unverified" then []
        else ["tier must be one of: verified, community, unverified"]
      | _ => ["tier must be one of: verified, community, unverified"]
    let catErrs :=
      match tool.get "categories" with
      | .arr elems =>
        if elems.isEmpty then ["categories must be a non-empty array"] else []
      | _ => ["categories must be a non-empty array"]
    let vendorErrs :=
      let v := tool.get "vendor"
      if !v.isObjectLike then ["vendor must be an object"]
      else
        (if (v.get "name").missingString then ["vendor.name is required"] else []) ++
        (if (v.get "domain").missingString then ["vendor.domain is required"] else []) ++
        (if (v.get "verified").isBool then [] else ["vendor.verified must be boolean"])
    let installErrs :=
      if (tool.get "install").isObjectLike then [] else ["install must be an object"]
    let capErrs :=
      let c := tool.get "capabilities"
      if !c.isObjectLike then ["capabilities must be an object"]
      else
        (if (c.get "jsonOutput").isBool then [] else ["capabilities.jsonOutput must be boolean"]) ++
        (if (c.get "idempotent").isBool then [] else ["capabilities.idempotent must be boolean"]) ++
        (if (c.get "interactive").isBool then [] else ["capabilities.interactive must be boolean"]) ++
        (if (c.get "streaming").isBool then [] else ["capabilities.streaming must be boolean"]) ++
        (if (c.get "auth").isArr then [] else ["capabilities.auth must be an array"])
    let errors := requiredErrs ++ slugErrs ++ scoreErrs ++ tierErrs ++ catErrs ++
      vendorErrs ++ installErrs ++ capErrs
    ⟨errors.isEmpty, errors⟩

/-! ## String helpers used by the verification engine

JavaScript string semantics implemented over `List Char`:
`includes`, single-occurrence `replace`, `toLowerCase`, `split`,
and the two regexes of `verify.ts`. -/

/-- Split a character list at the first occurrence of `pat`, returning
the parts before and after it, or `none` if `pat` does not occur. -/
def splitFirst (pat : List Char) : List Char → Option (List Char × List Char)
  | [] => if pat.isEmpty then some ([], []) else none
  | c :: rest =>
    if pat.isPrefixOf (c :: rest) then some ([], (c :: rest).drop pat.length)
    else
      match splitFirst pat rest with
      | some (pre, post) => some (c :: pre, post)
      | none => none

/-- JavaScript `s.includes(pat)`. -/
def containsSubstr (s pat : String) : Bool :=
  (splitFirst pat.data s.data).isSome

/-- JavaScript `s.replace(pat, rep)` with a string pattern: replaces
only the first occurrence. -/
def replaceFirstOcc (s pat rep : String) : String :=
  match splitFirst pat.data s.data with
  | some (pre, post) => String.mk pre ++ rep ++ String.mk post
  | none => s

/-- JavaScript `s.toLowerCase()` (character-wise). -/
def lowerStr (s : String) : String :=
  String.mk (s.data.map Char.toLower)

/-- The regex match `repoUrl.match(/github\.com\/([^\/]+)/)`: the
lower-cased run of non-slash characters following the first
`github.com/`, or `none` when there is no such (non-empty) run
(`extractGitHubOrg` in `src/verify.ts`). -/
def extractGitHubOrg (repoUrl : String) : Option String :=
  match splitFirst "github.com/".data repoUrl.data with
  | none => none
  | some (_, post) =>
    let org := post.takeWhile (fun c => c ≠ '/')
    if org.isEmpty then none else some (lowerStr (String.mk org))

/-- The suffix alternatives of the regex `/\.(com|org|io|co|dev|sh)$/`,
in alternation order. -/
def tldSuffixes : List String := [".com", ".org", ".io", ".co", ".dev", ".sh"]

/-- `domain.replace(/\.(com|org|io|co|dev|sh)$/, '')`: strip one
recognized top-level-domain suffix, if present. -/
def stripTld (domain : String) : String :=
  match tldSuffixes.find? (fun suf => suf.data.isSuffixOf domain.data) with
  | some suf => String.mk (domain.data.take (domain.data.length - suf.data.length))
  | none => domain

/-- JavaScript `s.split(c)` on a single-character separator. -/
def splitOnChar (c : Char) : List Char → List (List Char)
  | [] => [[]]
  | x :: xs =>
    match splitOnChar c xs with
    | [] => [[]]
    | g :: gs => if x = c then [] :: g :: gs else (x :: g) :: gs

/-- `domainToOrg` from `src/verify.ts`: candidate GitHub organisation
names generated from a vendor domain. -/
def domainToOrg (domain : String) : List String :=
  let base := lowerStr (stripTld domain)
  [base,
   String.mk (base.data.filter (fun c => c ≠ '.')),
   String.mk (base.data.map (fun c => if c = '.' then '-' else c)),
   String.mk ((splitOnChar '.' base.data).headD [])]

/-! ## Verification engine (`src/verify.ts`) -/

/-- The three trust tiers; also the type of verification
recommendations (both are the string union
`'verified' | 'community' | 'unverified'` in the source). -/
inductive Tier where
  | verified | community | unverified
deriving DecidableEq, Repr

/-- One named check: `{passed, detail}`. -/
structure CheckResult where
  passed : Bool
  detail : String
deriving DecidableEq, Repr

/-- The four checks of a `VerificationResult`. -/
structure Checks where
  repoExists : CheckResult
  repoActive : CheckResult
  domainMatch : CheckResult
  hasInstallMethod : CheckResult
deriving DecidableEq, Repr

/-- How many of the four checks passed. -/
def passedCount (c : Checks) : ℕ :=
  [c.repoExists.passed, c.repoActive.passed, c.domainMatch.passed,
   c.hasInstallMethod.passed].count true

/-- The result of `verifyTool`. -/
structure VerificationResult where
  slug : String
  checks : Checks
  score : ℤ
  recommendation : Tier
deriving DecidableEq, Repr

/-- Install methods (`InstallMethods` in `types.ts`): each key may be
absent. -/
structure InstallMethods where
  brew : Option String := none
  apt : Option String := none
  npm : Option String := none
  cargo : Option String := none
  go : Option String := none
  binary : Option String := none
  script : Option String := none
deriving DecidableEq, Repr

/-- Vendor metadata. -/
structure Vendor where
  name : String
  domain : String
  verified : Bool
deriving DecidableEq, Repr

/-- Capability flags. -/
structure Capabilities where
  jsonOutput : Bool
  auth : List String
  idempotent : Bool
  interactive : Bool
  streaming : Bool
deriving DecidableEq, Repr

/-- A tool record (`CliTool` in `types.ts`). -/
structure CliTool where
  slug : String
  name : String
  vendor : Vendor
  repo : Option String := none
  docs : Option String := none
  install : InstallMethods
  capabilities : Capabilities
  agentScore : ℚ
  agentScores : Option AgentScores := none
  categories : List String
  description : String
  tier : Tier

/-- `Object.values(tool.install)` in field order. -/
def installValues (i : InstallMethods) : List (Option String) :=
  [i.brew, i.apt, i.npm, i.cargo, i.go, i.binary, i.script]

/-- `Object.values(tool.install).filter(Boolean)`: the present,
non-empty install arguments. -/
def truthyInstalls (i : InstallMethods) : List String :=
  ((installValues i).filterMap id).filter (fun s => s ≠ "")

/-- The JSON body of a repository-metadata response; timestamps are
already parsed to an integer time value, and either field may be
absent. -/
structure RepoJson where
  pushedAt : Option ℤ := none
  stargazersCount : Option ℕ := none

/-- An HTTP response as `verifyTool` observes one: the `ok` flag, the
status code, and the result of awaiting `.json()` (which may itself
throw). -/
structure FetchResponse where
  ok : Bool
  status : ℕ
  json : Except Unit RepoJson

/-- The environment of one `verifyTool` run: the injected fetch
function (`.error` models a rejected promise or thrown error), the
one-year-ago cutoff as an integer time value, and an abstract ISO
date renderer for detail strings. -/
structure FetchEnv where
  fetch : String → Except Unit FetchResponse
  oneYearAgo : ℤ
  isoDay : ℤ → String

/-- The GitHub API URL `verifyTool` builds for a repo URL. -/
def apiUrl (repo : String) : String :=
  "https://api.github.com/repos/" ++ replaceFirstOcc repo "https://github.com/" ""

/-- The check-computing phase of `verifyTool`: the four checks plus the
list of URLs passed to the injected fetch function. -/
def computeChecks (tool : CliTool) (env : FetchEnv) : Checks × List String :=
  let base : Checks :=
    { repoExists := ⟨false, "No repo URL provided"⟩
      repoActive := ⟨false, "Could not check activity"⟩
      domainMatch := ⟨false, "Could not verify domain match"⟩
      hasInstallMethod := ⟨false, "No install method provided"⟩ }
  let installs := truthyInstalls tool.install
  let c0 :=
    if installs.length > 0 then
      { base with hasInstallMethod :=
          ⟨true, toString installs.length ++ " install method(s)"⟩ }
    else base
  match tool.repo with
  | none => (c0, [])
  | some repo =>
    if containsSubstr repo "github.com" then
      let url := apiUrl repo
      match env.fetch url with
      | .error _ => ({ c0 with repoExists := ⟨false, "Failed to fetch repo info"⟩ }, [url])
      | .ok resp =>
        if resp.ok then
          match resp.json with
          | .error _ =>
            ({ c0 with repoExists := ⟨false, "Failed to fetch repo info"⟩ }, [url])
          | .ok data =>
            let c1 := { c0 with repoExists := ⟨true, "Repository exists on GitHub"⟩ }
            let c2 :=
              match data.pushedAt with
              | none => c1
              | some t =>
                if env.oneYearAgo < t then
                  { c1 with repoActive :=
                      ⟨true, "Last activity: " ++ env.isoDay t ++ ", " ++
                        toString (data.stargazersCount.getD 0) ++ " stars"⟩ }
                else
                  { c1 with repoActive := ⟨false, "Inactive since " ++ env.isoDay t⟩ }
            let c3 :=
              match extractGitHubOrg repo with
              | none => c2
              | some org =>
                if org ∈ domainToOrg tool.vendor.domain then
                  { c2 with domainMatch :=
                      ⟨true, "GitHub org \"" ++ org ++ "\" matches vendor domain"⟩ }
                else
                  { c2 with domainMatch :=
                      ⟨false, "GitHub org \"" ++ org ++ "\" doesn\x27t match \"" ++
                        tool.vendor.domain ++ "\""⟩ }
            (c3, [url])
        else
          ({ c0 with repoExists := ⟨false, "GitHub returned " ++ toString resp.status⟩ },
           [url])
    else (c0, [])

/-- The recommendation thresholds of `verifyTool`. -/
def recommendationFor (n : ℕ) : Tier :=
  if n ≥ 4 then .verified else if n ≥ 2 then .community else .unverified

/-- `verifyTool` from `src/verify.ts`: compute the four checks, then
the 0–100 score `round(passed/4*100)` and the tier recommendation.
Returns the result together with the URLs fetched. -/
def verifyTool (tool : CliTool) (env : FetchEnv) : VerificationResult × List String :=
  let cc := computeChecks tool env
  let n := passedCount cc.1
  ({ slug := tool.slug
     checks := cc.1
     score := jsRound ((n : ℚ) / 4 * 100)
     recommendation := recommendationFor n }, cc.2)

/-! ## Concrete fixtures used by witnesses and counterexamples -/

/-- A review with the given five dimension values. -/
def mkReview (a b c d e : ℕ) : Review :=
  { tool := "gh", agentId := "agent-1", scores := ⟨a, b, c, d, e⟩ }

/-- A fully well-formed candidate tool record, parameterised by the
value stored under `agentScore`. -/
def goodToolJs (score : Js) : Js :=
  .obj
    [("slug", .str "gh"),
     ("name", .str "GitHub CLI"),
     ("description", .str "GitHub on the command line"),
     ("agentScore", score),
     ("tier", .str "verified"),
     ("categories", .arr [.str "vcs"]),
     ("vendor", .obj
       [("name", .str "GitHub"), ("domain", .str "github.com"),
        ("verified", .bool true)]),
     ("install", .obj [("brew", .str "gh")]),
     ("capabilities", .obj
       [("jsonOutput", .bool true), ("idempotent", .bool true),
        ("interactive", .bool false), ("streaming", .bool false),
        ("auth", .arr [])])]

/-- A tool record with no repository URL. -/
def noRepoTool : CliTool :=
  { slug := "norepo"
    name := "No Repo"
    vendor := ⟨"Acme", "acme.com", false⟩
    install := { brew := some "norepo" }
    capabilities := ⟨true, [], true, false, false⟩
    agentScore := 5
    categories := ["misc"]
    description := "a tool without a repo"
    tier := .unverified }

/-- A tool record whose repository URL is not on github.com. -/
def gitlabTool : CliTool :=
  { noRepoTool with slug := "gl", repo := some "https://gitlab.com/org/repo" }

/-- A tool record hosted on github.com. -/
def ghTool : CliTool :=
  { noRepoTool with
    slug := "gh"
    repo := some "https://github.com/cli/cli"
    vendor := ⟨"GitHub", "github.com", true⟩ }

/-- An environment whose fetch function always fails (rejected
promise). -/
def rejectEnv : FetchEnv :=
  { fetch := fun _ => .error (), oneYearAgo := 0, isoDay := fun _ => "" }

/-- A response with a non-success status. -/
def resp404 : FetchResponse :=
  { ok := false, status := 404, json := .error () }

/-- An environment whose fetch function always yields a 404. -/
def status404Env : FetchEnv :=
  { fetch := fun _ => .ok resp404, oneYearAgo := 0, isoDay := fun _ => "" }

/-! ## General lemmas about the rounding primitive -/

/-- `jsRound` agrees with the mathematical floor of `q + 1/2`. -/
theorem jsRound_eq_floor (q : ℚ) : jsRound q = ⌊q + 1/2⌋ := by
  rw [jsRound, Rat.floor_def', ← Rat.floor_def]

/-- `jsRound` is monotone. -/
theorem jsRound_mono {p q : ℚ} (h : p ≤ q) : jsRound p ≤ jsRound q := by
  rw [jsRound_eq_floor, jsRound_eq_floor]
  exact Int.floor_le_floor (by linarith)

/-- `jsRound` fixes integers. -/
theorem jsRound_intCast (z : ℤ) : jsRound (z : ℚ) = z := by
  rw [jsRound_eq_floor, add_comm, Int.floor_add_int]
  norm_num

/-- `jsRound` fixes natural numbers. -/
theorem jsRound_natCast (n : ℕ) : jsRound (n : ℚ) = n := by
  have := jsRound_intCast (n : ℤ)
  push_cast at this ⊢
  exact this

/-! ## Score calculator properties -/

/-- The agent score is monotone in the weighted sum. -/
theorem computeAgentScore_le_of_weighted_le {s s' : AgentScores}
    (h : weightedAgent s ≤ weightedAgent s') :
    computeAgentScore s ≤ computeAgentScore s' := by
  apply jsRound_mono
  have h' : (weightedAgent s : ℚ) ≤ (weightedAgent s' : ℚ) := by exact_mod_cast h
  linarith

/-- The review score is monotone in the dimension sum. -/
theorem computeReviewScore_le_of_sum_le {s s' : ReviewScores}
    (h : sumReview s ≤ sumReview s') :
    computeReviewScore s ≤ computeReviewScore s' := by
  apply jsRound_mono
  have h' : (sumReview s : ℚ) ≤ (sumReview s' : ℚ) := by exact_mod_cast h
  linarith

/-- C2: the all-ones score vector yields exactly 2 and the all-fives
vector exactly 10, under both the agent-friendliness weighting and the
review weighting. -/
theorem score_extremes :
    computeAgentScore ⟨1, 1, 1, 1, 1⟩ = 2 ∧ computeReviewScore ⟨1, 1, 1, 1, 1⟩ = 2 ∧
    computeAgentScore ⟨5, 5, 5, 5, 5⟩ = 10 ∧ computeReviewScore ⟨5, 5, 5, 5, 5⟩ = 10 := by
  refine ⟨?_, ?_, ?_, ?_⟩ <;>
    norm_num [computeAgentScore, computeReviewScore, weightedAgent, sumReview,
      jsRound_eq_floor]

/-- C3: for score vectors within the schema range 1–5, raising a single
dimension while holding the other four fixed never decreases the
computed score, for either weighting scheme. -/
theorem score_monotone :
    (∀ (s : AgentScores) (d : AgentDim) (v w : ℕ),
      (s.setDim d v).valid → (s.setDim d w).valid → v ≤ w →
      computeAgentScore (s.setDim d v) ≤ computeAgentScore (s.setDim d w)) ∧
    (∀ (s : ReviewScores) (d : ReviewDim) (v w : ℕ),
      (s.setDim d v).valid → (s.setDim d w).valid → v ≤ w →
      computeReviewScore (s.setDim d v) ≤ computeReviewScore (s.setDim d w)) := by
  constructor
  · intro s d v w _ _ hvw
    apply computeAgentScore_le_of_weighted_le
    cases d <;> simp [AgentScores.setDim, weightedAgent] <;> omega
  · intro s d v w _ _ hvw
    apply computeReviewScore_le_of_sum_le
    cases d <;> simp [ReviewScores.setDim, sumReview] <;> omega

/-- Witness for C3 at a concrete vector and dimension. -/
theorem score_monotone_witness :
    (AgentScores.setDim ⟨1, 2, 3, 4, 5⟩ .jsonOutput 2).valid ∧
    (AgentScores.setDim ⟨1, 2, 3, 4, 5⟩ .jsonOutput 4).valid ∧ (2 : ℕ) ≤ 4 ∧
    computeAgentScore (AgentScores.setDim ⟨1, 2, 3, 4, 5⟩ .jsonOutput 2) ≤
      computeAgentScore (AgentScores.setDim ⟨1, 2, 3, 4, 5⟩ .jsonOutput 4) :=
  ⟨by decide, by decide, by decide,
   score_monotone.1 ⟨1, 2, 3, 4, 5⟩ .jsonOutput 2 4 (by decide) (by decide) (by decide)⟩

/-! ## Verification engine properties -/

/-- At most four checks can pass. -/
theorem passedCount_le_four (c : Checks) : passedCount c ≤ 4 :=
  le_trans (List.count_le_length _ _) (by simp)

/-- The recommendation thresholds, case by case. -/
theorem recommendationFor_iff (n : ℕ) (hle : n ≤ 4) :
    (recommendationFor n = .verified ↔ n = 4) ∧
    (recommendationFor n = .community ↔ (n = 2 ∨ n = 3)) ∧
    (recommendationFor n = .unverified ↔ (n = 0 ∨ n = 1)) := by
  interval_cases n <;> decide

/-- C4: the score returned by `verifyTool` is `round(passed/4*100)` of
the checks it returns, and the recommendation is `verified` iff all 4
checks passed, `community` iff 2 or 3 passed, `unverified` iff 0 or 1
passed. -/
theorem verify_score_and_recommendation (tool : CliTool) (env : FetchEnv) :
    (verifyTool tool env).1.score =
      jsRound ((passedCount (verifyTool tool env).1.checks : ℚ) / 4 * 100) ∧
    ((verifyTool tool env).1.recommendation = .verified ↔
      passedCount (verifyTool tool env).1.checks = 4) ∧
    ((verifyTool tool env).1.recommendation = .community ↔
      (passedCount (verifyTool tool env).1.checks = 2 ∨
       passedCount (verifyTool tool env).1.checks = 3)) ∧
    ((verifyTool tool env).1.recommendation = .unverified ↔
      (passedCount (verifyTool tool env).1.checks = 0 ∨
       passedCount (verifyTool tool env).1.checks = 1)) := by
  have hle := passedCount_le_four (computeChecks tool env).1
  have h := recommendationFor_iff (passedCount (computeChecks tool env).1) hle
  exact ⟨rfl, h.1, h.2.1, h.2.2⟩

/-- C5: when the tool has a GitHub repo URL and the injected fetch
function fails, `verifyTool` still returns a result (with the tool's
slug) whose `repoExists` check failed with the fetch-failure detail. -/
theorem verify_network_error_contained (tool : CliTool) (env : FetchEnv) (r : String)
    (hrepo : tool.repo = some r)
    (hgh : containsSubstr r "github.com" = true)
    (hfetch : env.fetch (apiUrl r) = .error ()) :
    (verifyTool tool env).1.slug = tool.slug ∧
    (verifyTool tool env).1.checks.repoExists.passed = false ∧
    (verifyTool tool env).1.checks.repoExists.detail = "Failed to fetch repo info" := by
  unfold verifyTool computeChecks
  rw [hrepo]
  simp [hgh, hfetch]

/-- Witness for C5: a GitHub-hosted tool under an always-failing fetch
environment. -/
theorem verify_network_error_witness :
    (verifyTool ghTool rejectEnv).1.slug = ghTool.slug ∧
    (verifyTool ghTool rejectEnv).1.checks.repoExists.passed = false ∧
    (verifyTool ghTool rejectEnv).1.checks.repoExists.detail = "Failed to fetch repo info" :=
  verify_network_error_contained ghTool rejectEnv "https://github.com/cli/cli"
    rfl (by decide) rfl

/-- C10: without a GitHub repo URL, `verifyTool` performs no fetch
call, the three repository checks stay failed, the score is at most
25, and the recommendation is `unverified`. -/
theorem no_github_no_fetch (tool : CliTool) (env : FetchEnv)
    (h : tool.repo = none ∨
      ∃ r, tool.repo = some r ∧ containsSubstr r "github.com" = false) :
    (verifyTool tool env).2 = [] ∧
    (verifyTool tool env).1.checks.repoExists.passed = false ∧
    (verifyTool tool env).1.checks.repoActive.passed = false ∧
    (verifyTool tool env).1.checks.domainMatch.passed = false ∧
    (verifyTool tool env).1.score ≤ 25 ∧
    (verifyTool tool env).1.recommendation = .unverified := by
  rcases h with h | ⟨r, hr, hgh⟩
  · by_cases hi : 0 < (truthyInstalls tool.install).length <;>
      unfold verifyTool computeChecks <;>
      simp [h, hi, passedCount, recommendationFor, jsRound_eq_floor] <;> norm_num
  · by_cases hi : 0 < (truthyInstalls tool.install).length <;>
      unfold verifyTool computeChecks <;>
      simp [hr, hgh, hi, passedCount, recommendationFor, jsRound_eq_floor] <;> norm_num

/-- Witness for C10: a tool without any repo URL. -/
theorem no_github_no_fetch_witness :
    (verifyTool noRepoTool rejectEnv).2 = [] ∧
    (verifyTool noRepoTool rejectEnv).1.checks.repoExists.passed = false ∧
    (verifyTool noRepoTool rejectEnv).1.checks.repoActive.passed = false ∧
    (verifyTool noRepoTool rejectEnv).1.checks.domainMatch.passed = false ∧
    (verifyTool noRepoTool rejectEnv).1.score ≤ 25 ∧
    (verifyTool noRepoTool rejectEnv).1.recommendation = .unverified :=
  no_github_no_fetch noRepoTool rejectEnv (Or.inl rfl)

/-- A detail string of the form `GitHub returned N` never coincides
with the missing-URL detail. -/
theorem github_returned_ne (s : String) :
    "GitHub returned " ++ s ≠ "No repo URL provided" := by
  intro h
  have h2 : ("GitHub returned " ++ s).data = ("No repo URL provided").data := by rw [h]
  rw [String.data_append] at h2
  have h3 : 'G' :: ("itHub returned ".data ++ s.data) =
      'N' :: "o repo URL provided".data := h2
  simp at h3

/-- Counterexample for C9: a repo URL that is present but not on
github.com produces the very same `repoExists` detail as a missing
repo URL, so the two causes are not distinguished. -/
theorem repo_detail_not_distinct_cex :
    (verifyTool gitlabTool rejectEnv).1.checks.repoExists.detail = "No repo URL provided" ∧
    (verifyTool noRepoTool rejectEnv).1.checks.repoExists.detail = "No repo URL provided" := by
  constructor <;> rfl

/-- C9 (amended): when `repoExists` fails, the detail identifies only
two of the claimed three causes: a missing repo URL and a
non-github.com repo URL both yield `No repo URL provided`, while a
non-success HTTP status yields the distinct `GitHub returned N`. -/
theorem repo_exists_detail_causes (tool : CliTool) (env : FetchEnv) :
    (tool.repo = none →
      (verifyTool tool env).1.checks.repoExists.detail = "No repo URL provided") ∧
    (∀ r, tool.repo = some r → containsSubstr r "github.com" = false →
      (verifyTool tool env).1.checks.repoExists.detail = "No repo URL provided") ∧
    (∀ r resp, tool.repo = some r → containsSubstr r "github.com" = true →
      env.fetch (apiUrl r) = .ok resp → resp.ok = false →
      (verifyTool tool env).1.checks.repoExists.detail =
        "GitHub returned " ++ toString resp.status ∧
      (verifyTool tool env).1.checks.repoExists.detail ≠ "No repo URL provided") := by
  refine ⟨?_, ?_, ?_⟩
  · intro h
    by_cases hi : 0 < (truthyInstalls tool.install).length <;>
      unfold verifyTool computeChecks <;> simp [h, hi]
  · intro r hr hgh
    by_cases hi : 0 < (truthyInstalls tool.install).length <;>
      unfold verifyTool computeChecks <;> simp [hr, hgh, hi]
  · intro r resp hr hgh hf hok
    by_cases hi : 0 < (truthyInstalls tool.install).length <;>
      unfold verifyTool computeChecks <;>
      simp [hr, hgh, hf, hok, hi] <;>
      exact github_returned_ne _

/-- Witness for C9 (amended) at a 404-returning environment. -/
theorem repo_exists_detail_witness :
    (verifyTool ghTool status404Env).1.checks.repoExists.detail =
      "GitHub returned " ++ toString resp404.status ∧
    (verifyTool ghTool status404Env).1.checks.repoExists.detail ≠ "No repo URL provided" :=
  (repo_exists_detail_causes ghTool status404Env).2.2 "https://github.com/cli/cli"
    resp404 rfl (by decide) rfl rfl

/-! ## Schema validator properties -/

/-- C6: `validateTool` is a total function returning a structured
result whose `valid` flag holds exactly when no error accumulated, and
a record missing both `slug` and `description` accumulates (at least)
the two distinct messages for both fields rather than stopping at the
first. -/
theorem validate_tool_total_accumulates :
    (∀ v : Js, (validateTool v).valid = true ↔ (validateTool v).errors = []) ∧
    (∀ fields : List (String × Js),
      (Js.obj fields).get "slug" = .undefined →
      (Js.obj fields).get "description" = .undefined →
      "Missing or invalid field: slug" ∈ (validateTool (.obj fields)).errors ∧
      "Missing or invalid field: description" ∈ (validateTool (.obj fields)).errors ∧
      (validateTool (.obj fields)).valid = false ∧
      "Missing or invalid field: slug" ≠ "Missing or invalid field: description") := by
  have hval : ∀ v : Js, (validateTool v).valid = true ↔ (validateTool v).errors = [] := by
    intro v
    by_cases hv : v.isObjectLike <;> simp [validateTool, hv, List.isEmpty_iff]
  refine ⟨hval, ?_⟩
  intro fields hs hd
  have hfs : "slug" ∈ (["slug", "name", "description"].filter
      (fun f => ((Js.obj fields).get f).missingString)) :=
    List.mem_filter.2 ⟨by simp, by rw [hs]; rfl⟩
  have hfd : "description" ∈ (["slug", "name", "description"].filter
      (fun f => ((Js.obj fields).get f).missingString)) :=
    List.mem_filter.2 ⟨by simp, by rw [hd]; rfl⟩
  have keyS : "Missing or invalid field: " ++ "slug" = "Missing or invalid field: slug" := by
    decide
  have keyD : "Missing or invalid field: " ++ "description" =
      "Missing or invalid field: description" := by decide
  have hmem1 : "Missing or invalid field: slug" ∈ (validateTool (.obj fields)).errors := by
    iterate 7 refine List.mem_append_left _ ?_
    exact keyS ▸ List.mem_map_of_mem (fun f => "Missing or invalid field: " ++ f) hfs
  have hmem2 : "Missing or invalid field: description" ∈ (validateTool (.obj fields)).errors := by
    iterate 7 refine List.mem_append_left _ ?_
    exact keyD ▸ List.mem_map_of_mem (fun f => "Missing or invalid field: " ++ f) hfd
  refine ⟨hmem1, hmem2, ?_, by decide⟩
  rcases h : (validateTool (.obj fields)).valid with _ | _
  · rfl
  · rw [(hval _).1 h] at hmem1
    simp at hmem1

/-- Counterexample for C7: an otherwise well-formed record whose
`agentScore` is the non-integer 5.5 is reported fully valid, with no
`agentScore` error. -/
theorem agent_score_fractional_cex :
    (validateTool (goodToolJs (.num (11/2)))).valid = true ∧
    (validateTool (goodToolJs (.num (11/2)))).errors = [] := by
  have h : ¬((11/2 : ℚ) < 1 ∨ 10 < (11/2 : ℚ)) := by norm_num
  simp [validateTool, goodToolJs, Js.get, Js.missingString, Js.isObjectLike,
    Js.isBool, Js.isArr, slugRegexTest, slugCharOk, h]

/-- C7 (amended): `validateTool` accepts any number in the closed
interval `[1, 10]` as `agentScore` — integrality is not checked — so a
record that is otherwise well-formed validates cleanly for every such
value, integer or not. -/
theorem agent_score_range_only (q : ℚ) (h1 : 1 ≤ q) (h2 : q ≤ 10) :
    (validateTool (goodToolJs (.num q))).valid = true ∧
    (validateTool (goodToolJs (.num q))).errors = [] := by
  have h : ¬(q < 1 ∨ 10 < q) := by push_neg; exact ⟨h1, h2⟩
  simp [validateTool, goodToolJs, Js.get, Js.missingString, Js.isObjectLike,
    Js.isBool, Js.isArr, slugRegexTest, slugCharOk, h]

/-- Witness for C7 (amended) at the fractional score 7/2. -/
theorem agent_score_range_only_witness :
    (validateTool (goodToolJs (.num (7/2)))).valid = true ∧
    (validateTool (goodToolJs (.num (7/2)))).errors = [] :=
  agent_score_range_only (7/2) (by norm_num) (by norm_num)

/-- Witness for C6 at a null input and the empty record. -/
theorem validate_tool_witness :
    ((validateTool .jsNull).valid = true ↔ (validateTool .jsNull).errors = []) ∧
    ("Missing or invalid field: slug" ∈ (validateTool (.obj [])).errors ∧
     "Missing or invalid field: description" ∈ (validateTool (.obj [])).errors ∧
     (validateTool (.obj [])).valid = false ∧
     "Missing or invalid field: slug" ≠ "Missing or invalid field: description") :=
  ⟨validate_tool_total_accumulates.1 .jsNull,
   validate_tool_total_accumulates.2 [] rfl rfl⟩

/-! ## Review aggregator properties -/

/-- Counterexample for C8: a single review with every dimension equal
to 4 (all values ≥ 4) has aggregate `avgScore` exactly 8, which is not
strictly greater than 8. -/
theorem aggregate_all_fours_cex :
    (aggregateReviews [mkReview 4 4 4 4 4]).map AggregateResult.avgScore = some 8 ∧
    ¬ ((8 : ℚ) > 8) := by
  constructor
  · simp [aggregateReviews, mkReview, totalDimMeans, allReviewDims, dimMean,
      dimValues, ReviewScores.dimVal]
    norm_num [jsRound_eq_floor]
  · norm_num

/-- C8 (amended): the aggregate of no reviews is the `null` sentinel,
and the aggregate of one review whose dimension values are all at
least 4 has `avgScore` at least 8 (exactly 8 when every value is 4)
with every dimension 100% favourable. -/
theorem aggregate_empty_and_favorable :
    aggregateReviews ([] : List Review) = none ∧
    ∀ rv : Review, (∀ d : ReviewDim, 4 ≤ rv.scores.dimVal d) →
      ∃ a, aggregateReviews [rv] = some a ∧ 8 ≤ a.avgScore ∧
        ∀ d : ReviewDim, (a.dimensions d).pct = 100 := by
  constructor
  · simp [aggregateReviews]
  · intro rv h
    refine ⟨_, rfl, ?_, ?_⟩
    · show (8 : ℚ) ≤ (jsRound (totalDimMeans [rv] / 5 / 5 * 10 * 10) : ℚ) / 10
      have hsum : totalDimMeans [rv] / 5 / 5 * 10 * 10 =
          ((4 * (rv.scores.jsonParseable + rv.scores.errorClarity +
            rv.scores.authSimplicity + rv.scores.idempotency +
            rv.scores.docsSufficient) : ℕ) : ℚ) := by
        simp [totalDimMeans, allReviewDims, dimMean, dimValues, ReviewScores.dimVal]
        ring
      rw [hsum, jsRound_natCast]
      rw [le_div_iff₀ (by norm_num : (0 : ℚ) < 10)]
      have h20 : 8 * 10 ≤ 4 * (rv.scores.jsonParseable + rv.scores.errorClarity +
          rv.scores.authSimplicity + rv.scores.idempotency +
          rv.scores.docsSufficient) := by
        have h1 := h .jsonParseable
        have h2 := h .errorClarity
        have h3 := h .authSimplicity
        have h4 := h .idempotency
        have h5 := h .docsSufficient
        simp [ReviewScores.dimVal] at h1 h2 h3 h4 h5
        omega
      exact_mod_cast h20
    · intro d
      have hgc : dimGoodCount [rv] d = 1 := by
        simp [dimGoodCount, dimValues, List.filter, h d]
      show jsRound ((dimGoodCount [rv] d : ℚ) / (dimValues [rv] d).length * 100) = 100
      rw [hgc]
      simp [dimValues]
      norm_num [jsRound_eq_floor]

/-- Witness for C8 (amended) at a concrete favourable review. -/
theorem aggregate_favorable_witness :
    (∀ d : ReviewDim, 4 ≤ (mkReview 5 4 5 4 5).scores.dimVal d) ∧
    (∃ a, aggregateReviews [mkReview 5 4 5 4 5] = some a ∧ 8 ≤ a.avgScore ∧
      ∀ d : ReviewDim, (a.dimensions d).pct = 100) :=
  ⟨by intro d; cases d <;> decide,
   aggregate_empty_and_favorable.2 (mkReview 5 4 5 4 5)
     (by intro d; cases d <;> decide)⟩

/-- C1: on every non-empty review list the aggregate's overall score
is exactly the two-stage value (mean per dimension, then mean across
dimensions, then scaled by 10/5 and rounded to one decimal), and there
is a review list on which this differs from the arithmetic mean of the
individual reviews' own `computeReviewScore` values. -/
theorem aggregate_two_stage_and_differs :
    (∀ reviews : List Review, reviews ≠ [] →
      ∃ a, aggregateReviews reviews = some a ∧ a.avgScore = specAggScore reviews) ∧
    (∃ reviews : List Review, reviews ≠ [] ∧
      ∃ a, aggregateReviews reviews = some a ∧ a.avgScore ≠ naiveAvgScore reviews) := by
  constructor
  · intro reviews h
    have hne : reviews.length ≠ 0 := fun h0 => h (List.length_eq_zero.1 h0)
    have heq : aggregateReviews reviews = some
        { count := reviews.length
          avgScore := (jsRound (totalDimMeans reviews / 5 / 5 * 10 * 10) : ℚ) / 10
          dimensions := fun d =>
            { avg := (jsRound (dimMean reviews d * 10) : ℚ) / 10
              pct := jsRound ((dimGoodCount reviews d : ℚ) /
                       (dimValues reviews d).length * 100) } } := by
      unfold aggregateReviews
      rw [if_neg hne]
    exact ⟨_, heq, rfl⟩
  · refine ⟨[mkReview 3 3 3 2 2], by simp, _, rfl, ?_⟩
    show (jsRound (totalDimMeans [mkReview 3 3 3 2 2] / 5 / 5 * 10 * 10) : ℚ) / 10 ≠
      naiveAvgScore [mkReview 3 3 3 2 2]
    simp [naiveAvgScore, mkReview, computeReviewScore, sumReview, totalDimMeans,
      allReviewDims, dimMean, dimValues, ReviewScores.dimVal]
    norm_num [jsRound_eq_floor]

/-- Witness for C1 at a concrete non-empty review list. -/
theorem aggregate_two_stage_witness :
    ([mkReview 5 5 5 5 5] : List Review) ≠ [] ∧
    ∃ a, aggregateReviews [mkReview 5 5 5 5 5] = some a ∧
      a.avgScore = specAggScore [mkReview 5 5 5 5 5] :=
  ⟨by simp, aggregate_two_stage_and_differs.1 [mkReview 5 5 5 5 5] (by simp)⟩

end Mcli
